import Mathlib

/-!
Verification of the `autofill-utils` command-line utility
(`examples/autofill-utils/src/autofill-utils.rs`).

The program is a thin CLI dispatcher over an external autofill storage
library.  We embed it shallowly: every external effect (opening a file,
deserializing JSON, creating the database handle, each library CRUD call)
is resolved by an oracle `World`, and each handler is translated
line-by-line into a function that returns the exact sequence of events it
performs (`List Event`) together with its `anyhow::Result` value
(`Except Err Unit`).  Printing is modelled by an `Output` datatype with
one constructor per `println!` in the source.
-/

namespace AutofillUtils

/-- Errors (`anyhow::Error`): treated as opaque values, so "propagated
unmodified" is value equality. -/
abbrev Err := String

/-- `sync_guid::Guid`: an opaque record-identifier string. -/
structure Guid where
  s : String
  deriving DecidableEq, Repr

/-- `Guid::from(String)`. -/
def Guid.fromString (s : String) : Guid := ⟨s⟩

/-- Modelled from the spec: `addresses::NewAddressFields` is an
externally-defined record type (defined in the out-of-scope `autofill`
library); the CLI treats it opaquely, so its fields are one opaque blob. -/
structure NewAddressFields where
  data : String
  deriving DecidableEq, Repr

/-- Modelled from the spec: `addresses::Address` is an externally-defined
record type; the CLI reads only its `guid` field, so the remaining fields
are one opaque blob. -/
structure Address where
  guid : Guid
  fields : String
  deriving DecidableEq, Repr

/-- Modelled from the spec: `credit_cards::NewCreditCardFields` is an
externally-defined record type, treated opaquely by the CLI. -/
structure NewCreditCardFields where
  data : String
  deriving DecidableEq, Repr

/-- Modelled from the spec: `credit_cards::CreditCard` is an
externally-defined record type; the CLI reads only its `guid` field. -/
structure CreditCard where
  guid : Guid
  fields : String
  deriving DecidableEq, Repr

/-- `autofill::db::AutofillDb`: the CLI only ever touches `db.writer`,
which we model as an opaque handle token. -/
structure AutofillDb where
  writer : Nat
  deriving DecidableEq, Repr

/-- One library CRUD invocation (the `addresses::*` / `credit_cards::*`
call together with the argument the CLI passes). -/
inductive LibCall where
  | addAddress (fields : NewAddressFields)
  | getAddress (g : Guid)
  | getAllAddresses
  | updateAddress (a : Address)
  | deleteAddress (g : Guid)
  | addCreditCard (fields : NewCreditCardFields)
  | getCreditCard (g : Guid)
  | getAllCreditCards
  | updateCreditCard (c : CreditCard)
  | deleteCreditCard (g : Guid)
  deriving DecidableEq, Repr

/-- One `println!` of the source, one constructor per call site, carrying
the interpolated values. -/
inductive Output where
  | retrievingAddressData (filename : String)
  | makingAddAddressCall
  | createdAddress (a : Address)
  | gettingAddress (guid : String)
  | retrievedAddress (a : Address)
  | gettingAllAddresses
  | retrievedAddresses (l : List Address)
  | updatingAddressData (filename : String)
  | makingUpdateAddressCall (g : Guid)
  | updatedAddress (a : Address)
  | deletingAddress (guid : String)
  | deletedAddress
  | retrievingCreditCardData (filename : String)
  | makingAddCreditCardCall
  | createdCreditCard (c : CreditCard)
  | gettingCreditCard (guid : String)
  | retrievedCreditCard (c : CreditCard)
  | gettingAllCreditCards
  | retrievedCreditCards (l : List CreditCard)
  | updatingCreditCardData (filename : String)
  | makingUpdateCreditCardCall (g : Guid)
  | updatedCreditCard (c : CreditCard)
  | deletingCreditCard (guid : String)
  | deletedCreditCard
  deriving DecidableEq, Repr

/-- An observable step of the program, in execution order: logging
initialization, `AutofillDb::new`, `File::open`, a `serde_json`
deserialization, a library CRUD call (tagged with the `db.writer` handle
it is made on), or a `println!`. -/
inductive Event where
  | initLogging
  | dbNew (path : String)
  | fileOpen (filename : String)
  | parseNewAddressFields (contents : String)
  | parseAddress (contents : String)
  | parseNewCreditCardFields (contents : String)
  | parseCreditCard (contents : String)
  | libCall (writer : Nat) (call : LibCall)
  | print (out : Output)
  deriving DecidableEq, Repr

/-- The oracle resolving every external effect: file contents,
deserialization results, database opening and every library call.  A run
of the CLI is deterministic given a `World`. -/
structure World where
  fileOpen : String → Except Err String
  parseNewAddressFields : String → Except Err NewAddressFields
  parseAddress : String → Except Err Address
  parseNewCreditCardFields : String → Except Err NewCreditCardFields
  parseCreditCard : String → Except Err CreditCard
  dbNew : String → Except Err AutofillDb
  addAddress : Nat → NewAddressFields → Except Err Address
  getAddress : Nat → Guid → Except Err Address
  getAllAddresses : Nat → Except Err (List Address)
  updateAddress : Nat → Address → Except Err Unit
  deleteAddress : Nat → Guid → Except Err Unit
  addCreditCard : Nat → NewCreditCardFields → Except Err CreditCard
  getCreditCard : Nat → Guid → Except Err CreditCard
  getAllCreditCards : Nat → Except Err (List CreditCard)
  updateCreditCard : Nat → CreditCard → Except Err Unit
  deleteCreditCard : Nat → Guid → Except Err Unit

/-- The result of running a handler: the events it performed, in order,
and its `Result<()>`. -/
abbrev Run := List Event × Except Err Unit

/-- `fn run_add_address(db, filename)`: print, `File::open(filename)?`,
`serde_json::from_reader(reader)?`, print, `addresses::add_address(&mut
db.writer, address_fields)?`, print the created address. -/
def run_add_address (w : World) (db : AutofillDb) (filename : String) : Run :=
  match w.fileOpen filename with
  | .error e => ([.print (.retrievingAddressData filename), .fileOpen filename], .error e)
  | .ok contents =>
    match w.parseNewAddressFields contents with
    | .error e =>
        ([.print (.retrievingAddressData filename), .fileOpen filename,
          .parseNewAddressFields contents], .error e)
    | .ok address_fields =>
      match w.addAddress db.writer address_fields with
      | .error e =>
          ([.print (.retrievingAddressData filename), .fileOpen filename,
            .parseNewAddressFields contents, .print .makingAddAddressCall,
            .libCall db.writer (.addAddress address_fields)], .error e)
      | .ok address =>
          ([.print (.retrievingAddressData filename), .fileOpen filename,
            .parseNewAddressFields contents, .print .makingAddAddressCall,
            .libCall db.writer (.addAddress address_fields),
            .print (.createdAddress address)], .ok ())

/-- `fn run_get_address(db, guid)`: print, `addresses::get_address(&mut
db.writer, &Guid::from(guid))?`, print the retrieved address. -/
def run_get_address (w : World) (db : AutofillDb) (guid : String) : Run :=
  match w.getAddress db.writer (Guid.fromString guid) with
  | .error e =>
      ([.print (.gettingAddress guid),
        .libCall db.writer (.getAddress (Guid.fromString guid))], .error e)
  | .ok address =>
      ([.print (.gettingAddress guid),
        .libCall db.writer (.getAddress (Guid.fromString guid)),
        .print (.retrievedAddress address)], .ok ())

/-- `fn run_get_all_addresses(db)`: print,
`addresses::get_all_addresses(&mut db.writer)?`, print the list. -/
def run_get_all_addresses (w : World) (db : AutofillDb) : Run :=
  match w.getAllAddresses db.writer with
  | .error e =>
      ([.print .gettingAllAddresses,
        .libCall db.writer .getAllAddresses], .error e)
  | .ok addresses =>
      ([.print .gettingAllAddresses,
        .libCall db.writer .getAllAddresses,
        .print (.retrievedAddresses addresses)], .ok ())

/-- `fn run_update_address(db, filename)`: print, `File::open(filename)?`,
`serde_json::from_reader(reader)?`, `let guid = address_fields.guid.clone()`,
print, `addresses::update_address(&mut db.writer, address_fields)?`,
`addresses::get_address(&mut db.writer, &guid)?`, print the fetched
address. -/
def run_update_address (w : World) (db : AutofillDb) (filename : String) : Run :=
  match w.fileOpen filename with
  | .error e => ([.print (.updatingAddressData filename), .fileOpen filename], .error e)
  | .ok contents =>
    match w.parseAddress contents with
    | .error e =>
        ([.print (.updatingAddressData filename), .fileOpen filename,
          .parseAddress contents], .error e)
    | .ok address_fields =>
      let guid := address_fields.guid
      match w.updateAddress db.writer address_fields with
      | .error e =>
          ([.print (.updatingAddressData filename), .fileOpen filename,
            .parseAddress contents, .print (.makingUpdateAddressCall guid),
            .libCall db.writer (.updateAddress address_fields)], .error e)
      | .ok _ =>
        match w.getAddress db.writer guid with
        | .error e =>
            ([.print (.updatingAddressData filename), .fileOpen filename,
              .parseAddress contents, .print (.makingUpdateAddressCall guid),
              .libCall db.writer (.updateAddress address_fields),
              .libCall db.writer (.getAddress guid)], .error e)
        | .ok address =>
            ([.print (.updatingAddressData filename), .fileOpen filename,
              .parseAddress contents, .print (.makingUpdateAddressCall guid),
              .libCall db.writer (.updateAddress address_fields),
              .libCall db.writer (.getAddress guid),
              .print (.updatedAddress address)], .ok ())

/-- `fn run_delete_address(db, guid)`: print,
`addresses::delete_address(&mut db.writer, &Guid::from(guid))?`, print. -/
def run_delete_address (w : World) (db : AutofillDb) (guid : String) : Run :=
  match w.deleteAddress db.writer (Guid.fromString guid) with
  | .error e =>
      ([.print (.deletingAddress guid),
        .libCall db.writer (.deleteAddress (Guid.fromString guid))], .error e)
  | .ok _ =>
      ([.print (.deletingAddress guid),
        .libCall db.writer (.deleteAddress (Guid.fromString guid)),
        .print .deletedAddress], .ok ())

/-- `fn run_add_credit_card(db, filename)`: mirror of `run_add_address`
for `credit_cards`. -/
def run_add_credit_card (w : World) (db : AutofillDb) (filename : String) : Run :=
  match w.fileOpen filename with
  | .error e => ([.print (.retrievingCreditCardData filename), .fileOpen filename], .error e)
  | .ok contents =>
    match w.parseNewCreditCardFields contents with
    | .error e =>
        ([.print (.retrievingCreditCardData filename), .fileOpen filename,
          .parseNewCreditCardFields contents], .error e)
    | .ok credit_card_fields =>
      match w.addCreditCard db.writer credit_card_fields with
      | .error e =>
          ([.print (.retrievingCreditCardData filename), .fileOpen filename,
            .parseNewCreditCardFields contents, .print .makingAddCreditCardCall,
            .libCall db.writer (.addCreditCard credit_card_fields)], .error e)
      | .ok credit_card =>
          ([.print (.retrievingCreditCardData filename), .fileOpen filename,
            .parseNewCreditCardFields contents, .print .makingAddCreditCardCall,
            .libCall db.writer (.addCreditCard credit_card_fields),
            .print (.createdCreditCard credit_card)], .ok ())

/-- `fn run_get_credit_card(db, guid)`: mirror of `run_get_address`. -/
def run_get_credit_card (w : World) (db : AutofillDb) (guid : String) : Run :=
  match w.getCreditCard db.writer (Guid.fromString guid) with
  | .error e =>
      ([.print (.gettingCreditCard guid),
        .libCall db.writer (.getCreditCard (Guid.fromString guid))], .error e)
  | .ok credit_card =>
      ([.print (.gettingCreditCard guid),
        .libCall db.writer (.getCreditCard (Guid.fromString guid)),
        .print (.retrievedCreditCard credit_card)], .ok ())

/-- `fn run_get_all_credit_cards(db)`: mirror of `run_get_all_addresses`. -/
def run_get_all_credit_cards (w : World) (db : AutofillDb) : Run :=
  match w.getAllCreditCards db.writer with
  | .error e =>
      ([.print .gettingAllCreditCards,
        .libCall db.writer .getAllCreditCards], .error e)
  | .ok credit_cards =>
      ([.print .gettingAllCreditCards,
        .libCall db.writer .getAllCreditCards,
        .print (.retrievedCreditCards credit_cards)], .ok ())

/-- `fn run_update_credit_card(db, filename)`: mirror of
`run_update_address`. -/
def run_update_credit_card (w : World) (db : AutofillDb) (filename : String) : Run :=
  match w.fileOpen filename with
  | .error e => ([.print (.updatingCreditCardData filename), .fileOpen filename], .error e)
  | .ok contents =>
    match w.parseCreditCard contents with
    | .error e =>
        ([.print (.updatingCreditCardData filename), .fileOpen filename,
          .parseCreditCard contents], .error e)
    | .ok credit_card_fields =>
      let guid := credit_card_fields.guid
      match w.updateCreditCard db.writer credit_card_fields with
      | .error e =>
          ([.print (.updatingCreditCardData filename), .fileOpen filename,
            .parseCreditCard contents, .print (.makingUpdateCreditCardCall guid),
            .libCall db.writer (.updateCreditCard credit_card_fields)], .error e)
      | .ok _ =>
        match w.getCreditCard db.writer guid with
        | .error e =>
            ([.print (.updatingCreditCardData filename), .fileOpen filename,
              .parseCreditCard contents, .print (.makingUpdateCreditCardCall guid),
              .libCall db.writer (.updateCreditCard credit_card_fields),
              .libCall db.writer (.getCreditCard guid)], .error e)
        | .ok credit_card =>
            ([.print (.updatingCreditCardData filename), .fileOpen filename,
              .parseCreditCard contents, .print (.makingUpdateCreditCardCall guid),
              .libCall db.writer (.updateCreditCard credit_card_fields),
              .libCall db.writer (.getCreditCard guid),
              .print (.updatedCreditCard credit_card)], .ok ())

/-- `fn run_delete_credit_card(db, guid)`: mirror of `run_delete_address`. -/
def run_delete_credit_card (w : World) (db : AutofillDb) (guid : String) : Run :=
  match w.deleteCreditCard db.writer (Guid.fromString guid) with
  | .error e =>
      ([.print (.deletingCreditCard guid),
        .libCall db.writer (.deleteCreditCard (Guid.fromString guid))], .error e)
  | .ok _ =>
      ([.print (.deletingCreditCard guid),
        .libCall db.writer (.deleteCreditCard (Guid.fromString guid)),
        .print .deletedCreditCard], .ok ())

/-- The `enum Command` of the ten structopt subcommands, carrying the
parsed argument exactly as in the source. -/
inductive Command where
  | addAddress (input_file : String)
  | getAddress (guid : String)
  | getAllAddresses
  | updateAddress (input_file : String)
  | deleteAddress (guid : String)
  | addCreditCard (input_file : String)
  | getCreditCard (guid : String)
  | getAllCreditCards
  | updateCreditCard (input_file : String)
  | deleteCreditCard (guid : String)
  deriving DecidableEq, Repr

/-- `struct Opts`: root options plus the subcommand. -/
structure Opts where
  database_path : String
  no_logging : Bool
  cmd : Command
  deriving DecidableEq, Repr

/-- The `match opts.cmd` dispatch of `fn main`. -/
def dispatch (w : World) (db : AutofillDb) : Command → Run
  | .addAddress input_file => run_add_address w db input_file
  | .getAddress guid => run_get_address w db guid
  | .getAllAddresses => run_get_all_addresses w db
  | .updateAddress input_file => run_update_address w db input_file
  | .deleteAddress guid => run_delete_address w db guid
  | .addCreditCard input_file => run_add_credit_card w db input_file
  | .getCreditCard guid => run_get_credit_card w db guid
  | .getAllCreditCards => run_get_all_credit_cards w db
  | .updateCreditCard input_file => run_update_credit_card w db input_file
  | .deleteCreditCard guid => run_delete_credit_card w db guid

/-- `fn main`, after argument parsing: optionally init logging, open the
database (`AutofillDb::new(db_path)?`), then dispatch on the subcommand. -/
def main (w : World) (opts : Opts) : Run :=
  let logEvs : List Event := if opts.no_logging then [] else [.initLogging]
  match w.dbNew opts.database_path with
  | .error e => (logEvs ++ [.dbNew opts.database_path], .error e)
  | .ok db =>
    let r := dispatch w db opts.cmd
    (logEvs ++ .dbNew opts.database_path :: r.1, r.2)

/-- `Opts::from_args` as far as the claims need it: `database_path` has
structopt attribute `default_value = "./autofill.db"`, applied when the
option is absent from the command line. -/
def Opts.fromArgs (database_path_arg : Option String) (no_logging : Bool)
    (cmd : Command) : Opts :=
  { database_path := database_path_arg.getD "./autofill.db"
    no_logging := no_logging
    cmd := cmd }

/-! ### Trace observers -/

/-- The library CRUD calls appearing in a trace, in order. -/
def libEvents : List Event → List LibCall
  | [] => []
  | .libCall _ c :: tr => c :: libEvents tr
  | _ :: tr => libEvents tr

/-- The `File::open` attempts appearing in a trace, in order. -/
def fileOpens : List Event → List String
  | [] => []
  | .fileOpen f :: tr => f :: fileOpens tr
  | _ :: tr => fileOpens tr

/-- The number of `AutofillDb::new` attempts in a trace. -/
def dbNews : List Event → List String
  | [] => []
  | .dbNew p :: tr => p :: dbNews tr
  | _ :: tr => dbNews tr

/-- Last event of a trace, if any. -/
def lastEvent : List Event → Option Event
  | [] => Option.none
  | [e] => some e
  | _ :: e :: tr => lastEvent (e :: tr)

/-- The error the oracle `w` assigns to a fallible event, if that event's
effect fails (`Option.none` for infallible events and succeeding ones). -/
def stepErr (w : World) : Event → Option Err
  | .initLogging => Option.none
  | .print _ => Option.none
  | .dbNew p => match w.dbNew p with | .error e => some e | .ok _ => Option.none
  | .fileOpen f => match w.fileOpen f with | .error e => some e | .ok _ => Option.none
  | .parseNewAddressFields c =>
      match w.parseNewAddressFields c with | .error e => some e | .ok _ => Option.none
  | .parseAddress c =>
      match w.parseAddress c with | .error e => some e | .ok _ => Option.none
  | .parseNewCreditCardFields c =>
      match w.parseNewCreditCardFields c with | .error e => some e | .ok _ => Option.none
  | .parseCreditCard c =>
      match w.parseCreditCard c with | .error e => some e | .ok _ => Option.none
  | .libCall wr call =>
    match call with
    | .addAddress fields =>
        match w.addAddress wr fields with | .error e => some e | .ok _ => Option.none
    | .getAddress g =>
        match w.getAddress wr g with | .error e => some e | .ok _ => Option.none
    | .getAllAddresses =>
        match w.getAllAddresses wr with | .error e => some e | .ok _ => Option.none
    | .updateAddress a =>
        match w.updateAddress wr a with | .error e => some e | .ok _ => Option.none
    | .deleteAddress g =>
        match w.deleteAddress wr g with | .error e => some e | .ok _ => Option.none
    | .addCreditCard fields =>
        match w.addCreditCard wr fields with | .error e => some e | .ok _ => Option.none
    | .getCreditCard g =>
        match w.getCreditCard wr g with | .error e => some e | .ok _ => Option.none
    | .getAllCreditCards =>
        match w.getAllCreditCards wr with | .error e => some e | .ok _ => Option.none
    | .updateCreditCard c =>
        match w.updateCreditCard wr c with | .error e => some e | .ok _ => Option.none
    | .deleteCreditCard g =>
        match w.deleteCreditCard wr g with | .error e => some e | .ok _ => Option.none

/-! ### The subcommand surface (structopt attributes) -/

/-- The argument a subcommand declares: `--input-file`/`-i`, `--guid`/`-g`,
or none at all. -/
inductive ArgKind where
  | inputFile
  | guidArg
  | noArg
  deriving DecidableEq, Repr

/-- One subcommand of the `enum Command` structopt derive: its
`#[structopt(name = ...)]` and the argument its field declares. -/
structure SubcommandSpec where
  name : String
  arg : ArgKind
  deriving DecidableEq, Repr

/-- The ten subcommands, read off the `#[structopt(...)]` attributes of
`enum Command`, in declaration order. -/
def commandSpecs : List SubcommandSpec :=
  [⟨"add-address", .inputFile⟩,
   ⟨"get-address", .guidArg⟩,
   ⟨"get-all-addresses", .noArg⟩,
   ⟨"update-address", .inputFile⟩,
   ⟨"delete-address", .guidArg⟩,
   ⟨"add-credit-card", .inputFile⟩,
   ⟨"get-credit-card", .guidArg⟩,
   ⟨"get-all-credit-cards", .noArg⟩,
   ⟨"update-credit-card", .inputFile⟩,
   ⟨"delete-credit-card", .guidArg⟩]

/-- The structopt name of a parsed `Command`. -/
def commandName : Command → String
  | .addAddress _ => "add-address"
  | .getAddress _ => "get-address"
  | .getAllAddresses => "get-all-addresses"
  | .updateAddress _ => "update-address"
  | .deleteAddress _ => "delete-address"
  | .addCreditCard _ => "add-credit-card"
  | .getCreditCard _ => "get-credit-card"
  | .getAllCreditCards => "get-all-credit-cards"
  | .updateCreditCard _ => "update-credit-card"
  | .deleteCreditCard _ => "delete-credit-card"

/-! ### Correspondence between subcommands and library calls -/

/-- Does this library call correspond to this subcommand (the mapping of
the claim: `add-address` ↦ `addresses::add_address`, etc.)?  For the
guid-taking subcommands the call's argument is pinned to
`Guid::from(guid)`. -/
def matchesCall : Command → LibCall → Bool
  | .addAddress _, .addAddress _ => true
  | .getAddress g, .getAddress g2 => decide (g2 = Guid.fromString g)
  | .getAllAddresses, .getAllAddresses => true
  | .updateAddress _, .updateAddress _ => true
  | .deleteAddress g, .deleteAddress g2 => decide (g2 = Guid.fromString g)
  | .addCreditCard _, .addCreditCard _ => true
  | .getCreditCard g, .getCreditCard g2 => decide (g2 = Guid.fromString g)
  | .getAllCreditCards, .getAllCreditCards => true
  | .updateCreditCard _, .updateCreditCard _ => true
  | .deleteCreditCard g, .deleteCreditCard g2 => decide (g2 = Guid.fromString g)
  | _, _ => false

/-- Is this the re-fetch call an update subcommand makes after a
successful update? -/
def isGetFollowup : Command → LibCall → Bool
  | .updateAddress _, .getAddress _ => true
  | .updateCreditCard _, .getCreditCard _ => true
  | _, _ => false

/-- The two update subcommands. -/
def isUpdateCmd : Command → Bool
  | .updateAddress _ => true
  | .updateCreditCard _ => true
  | _ => false

/-- The four subcommands that read a JSON input file. -/
def isFileCmd : Command → Bool
  | .addAddress _ => true
  | .updateAddress _ => true
  | .addCreditCard _ => true
  | .updateCreditCard _ => true
  | _ => false

/-- Is this `println!` the final "result" print of this subcommand? -/
def resultPrint : Command → Output → Bool
  | .addAddress _, .createdAddress _ => true
  | .getAddress _, .retrievedAddress _ => true
  | .getAllAddresses, .retrievedAddresses _ => true
  | .updateAddress _, .updatedAddress _ => true
  | .deleteAddress _, .deletedAddress => true
  | .addCreditCard _, .createdCreditCard _ => true
  | .getCreditCard _, .retrievedCreditCard _ => true
  | .getAllCreditCards, .retrievedCreditCards _ => true
  | .updateCreditCard _, .updatedCreditCard _ => true
  | .deleteCreditCard _, .deletedCreditCard => true
  | _, _ => false

/-- For the file-consuming subcommands: does the input file open and its
contents deserialize as the type the subcommand expects?  `true` for the
other subcommands. -/
def inputOk (w : World) : Command → Bool
  | .addAddress f =>
      match w.fileOpen f with
      | .error _ => false
      | .ok c => match w.parseNewAddressFields c with | .error _ => false | .ok _ => true
  | .updateAddress f =>
      match w.fileOpen f with
      | .error _ => false
      | .ok c => match w.parseAddress c with | .error _ => false | .ok _ => true
  | .addCreditCard f =>
      match w.fileOpen f with
      | .error _ => false
      | .ok c => match w.parseNewCreditCardFields c with | .error _ => false | .ok _ => true
  | .updateCreditCard f =>
      match w.fileOpen f with
      | .error _ => false
      | .ok c => match w.parseCreditCard c with | .error _ => false | .ok _ => true
  | _ => true

/-! ### Concrete worlds for witnesses and counterexamples -/

/-- A concrete address used in witnesses. -/
def addrW : Address := ⟨⟨"addr-guid-1"⟩, "addr-fields"⟩

/-- A concrete credit card used in witnesses. -/
def cardW : CreditCard := ⟨⟨"card-guid-1"⟩, "card-fields"⟩

/-- A world in which every effect succeeds. -/
def happyWorld : World where
  fileOpen := fun _ => .ok "contents"
  parseNewAddressFields := fun _ => .ok ⟨"new-addr"⟩
  parseAddress := fun _ => .ok addrW
  parseNewCreditCardFields := fun _ => .ok ⟨"new-card"⟩
  parseCreditCard := fun _ => .ok cardW
  dbNew := fun _ => .ok ⟨7⟩
  addAddress := fun _ _ => .ok addrW
  getAddress := fun _ _ => .ok addrW
  getAllAddresses := fun _ => .ok [addrW]
  updateAddress := fun _ _ => .ok ()
  deleteAddress := fun _ _ => .ok ()
  addCreditCard := fun _ _ => .ok cardW
  getCreditCard := fun _ _ => .ok cardW
  getAllCreditCards := fun _ => .ok [cardW]
  updateCreditCard := fun _ _ => .ok ()
  deleteCreditCard := fun _ _ => .ok ()

/-- A world in which every file open fails. -/
def noFileWorld : World :=
  { happyWorld with fileOpen := fun _ => .error "io: not found" }

/-- A world in which files open but nothing deserializes. -/
def badJsonWorld : World :=
  { happyWorld with
    parseNewAddressFields := fun _ => .error "json: bad new address"
    parseAddress := fun _ => .error "json: bad address"
    parseNewCreditCardFields := fun _ => .error "json: bad new card"
    parseCreditCard := fun _ => .error "json: bad card" }

/-- A world in which opening the database fails. -/
def noDbWorld : World :=
  { happyWorld with dbNew := fun _ => .error "db: cannot open" }

/-! ### Basic lemmas about the trace observers -/

theorem libEvents_append (l l' : List Event) :
    libEvents (l ++ l') = libEvents l ++ libEvents l' := by
  induction l with
  | nil => rfl
  | cons e l ih => cases e <;> simp [libEvents, ih]

theorem dbNews_append (l l' : List Event) :
    dbNews (l ++ l') = dbNews l ++ dbNews l' := by
  induction l with
  | nil => rfl
  | cons e l ih => cases e <;> simp [dbNews, ih]

theorem fileOpens_append (l l' : List Event) :
    fileOpens (l ++ l') = fileOpens l ++ fileOpens l' := by
  induction l with
  | nil => rfl
  | cons e l ih => cases e <;> simp [fileOpens, ih]

theorem lastEvent_cons_ne (a : Event) (tr : List Event) (h : tr ≠ []) :
    lastEvent (a :: tr) = lastEvent tr := by
  cases tr with
  | nil => exact absurd rfl h
  | cons b tr => rfl

theorem lastEvent_append_cons (l : List Event) (a : Event) (l' : List Event) :
    lastEvent (l ++ a :: l') = lastEvent (a :: l') := by
  induction l with
  | nil => rfl
  | cons b l ih =>
      rw [List.cons_append, lastEvent_cons_ne b _ ?ne, ih]
      case ne =>
        intro hcontra
        rcases List.append_eq_nil.mp hcontra with ⟨-, h2⟩
        exact List.cons_ne_nil a l' h2

/-! ### Structural lemmas about `dispatch` -/

theorem dispatch_dbNews (w : World) (db : AutofillDb) (cmd : Command) :
    dbNews (dispatch w db cmd).1 = [] := by
  cases cmd <;>
    simp only [dispatch, run_add_address, run_get_address, run_get_all_addresses,
      run_update_address, run_delete_address, run_add_credit_card, run_get_credit_card,
      run_get_all_credit_cards, run_update_credit_card, run_delete_credit_card] <;>
    (repeat' split) <;> simp [dbNews]

theorem dispatch_ne_nil (w : World) (db : AutofillDb) (cmd : Command) :
    (dispatch w db cmd).1 ≠ [] := by
  cases cmd <;>
    simp only [dispatch, run_add_address, run_get_address, run_get_all_addresses,
      run_update_address, run_delete_address, run_add_credit_card, run_get_credit_card,
      run_get_all_credit_cards, run_update_credit_card, run_delete_credit_card] <;>
    (repeat' split) <;> simp

theorem dispatch_no_initLogging (w : World) (db : AutofillDb) (cmd : Command) :
    Event.initLogging ∉ (dispatch w db cmd).1 := by
  cases cmd <;>
    simp only [dispatch, run_add_address, run_get_address, run_get_all_addresses,
      run_update_address, run_delete_address, run_add_credit_card, run_get_credit_card,
      run_get_all_credit_cards, run_update_credit_card, run_delete_credit_card] <;>
    (repeat' split) <;> simp

theorem dispatch_writer (w : World) (db : AutofillDb) (cmd : Command) (wr : Nat)
    (call : LibCall) :
    Event.libCall wr call ∈ (dispatch w db cmd).1 → wr = db.writer := by
  cases cmd <;>
    simp only [dispatch, run_add_address, run_get_address, run_get_all_addresses,
      run_update_address, run_delete_address, run_add_credit_card, run_get_credit_card,
      run_get_all_credit_cards, run_update_credit_card, run_delete_credit_card] <;>
    (repeat' split) <;> simp <;> tauto

theorem dispatch_error_last (w : World) (db : AutofillDb) (cmd : Command) (e : Err)
    (h : (dispatch w db cmd).2 = .error e) :
    ∃ ev, lastEvent (dispatch w db cmd).1 = some ev ∧ stepErr w ev = some e := by
  cases cmd <;>
    simp only [dispatch, run_add_address, run_get_address, run_get_all_addresses,
      run_update_address, run_delete_address, run_add_credit_card, run_get_credit_card,
      run_get_all_credit_cards, run_update_credit_card, run_delete_credit_card] at h ⊢ <;>
    (repeat' split at h) <;>
    simp_all [lastEvent, stepErr]

/-! ### Claim C5 -/

/-- C5, as stated, is false: the claim says every one of the ten
subcommands takes either an `--input-file`/`-i` argument or a
`--guid`/`-g` argument, but `get-all-addresses` (the third declared
subcommand) and `get-all-credit-cards` declare no argument at all. -/
theorem C5_counterexample :
    commandSpecs.length = 10 ∧
    (commandSpecs.all fun s =>
      decide (s.arg = ArgKind.inputFile) || decide (s.arg = ArgKind.guidArg)) = false := by
  decide

/-- C5 (amended): the CLI dispatches to exactly ten subcommands with the
listed names; eight of them take either `--input-file`/`-i` or
`--guid`/`-g`, while `get-all-addresses` and `get-all-credit-cards` take
no argument. -/
theorem C5_amended_ten_subcommands :
    commandSpecs.length = 10 ∧
    commandSpecs.map SubcommandSpec.name =
      ["add-address", "get-address", "get-all-addresses", "update-address",
       "delete-address", "add-credit-card", "get-credit-card",
       "get-all-credit-cards", "update-credit-card", "delete-credit-card"] ∧
    (commandSpecs.filter fun s => decide (s.arg = ArgKind.noArg)).map SubcommandSpec.name =
      ["get-all-addresses", "get-all-credit-cards"] ∧
    (commandSpecs.filter fun s =>
      decide (s.arg = ArgKind.inputFile) || decide (s.arg = ArgKind.guidArg)).length = 8 := by
  decide

/-! ### Claim C6 -/

/-- C6: the root `--database-path`/`-d` option defaults to
`./autofill.db` when absent, is taken verbatim when supplied, and on
every run the single `AutofillDb::new` attempt is made on exactly
`opts.database_path`. -/
theorem C6_database_path (nl : Bool) (cmd : Command) (p : String) (w : World) :
    (Opts.fromArgs Option.none nl cmd).database_path = "./autofill.db" ∧
    (Opts.fromArgs (some p) nl cmd).database_path = p ∧
    ∀ opts : Opts, dbNews (main w opts).1 = [opts.database_path] := by
  refine ⟨rfl, rfl, ?_⟩
  intro opts
  rcases opts with ⟨p2, nl2, cmd2⟩
  unfold main
  cases hdb : w.dbNew p2 <;> cases nl2 <;>
    simp_all [dbNews_append, dbNews, dispatch_dbNews]

/-! ### Claim C9 -/

/-- C9: if `AutofillDb::new` fails, `main` returns exactly that error,
and the run performs no library CRUD call and no file open (no handler
work happens). -/
theorem C9_db_open_failure (w : World) (opts : Opts) (e : Err)
    (h : w.dbNew opts.database_path = .error e) :
    (main w opts).2 = .error e ∧
    libEvents (main w opts).1 = [] ∧
    fileOpens (main w opts).1 = [] := by
  rcases opts with ⟨p, nl, cmd⟩
  unfold main
  cases nl <;> simp_all [libEvents, fileOpens]

/-- Witness for C9 at a concrete world whose database cannot be opened. -/
theorem C9_db_open_failure_witness :
    noDbWorld.dbNew "p.db" = .error "db: cannot open" ∧
    ((main noDbWorld ⟨"p.db", false, Command.getAllAddresses⟩).2 = .error "db: cannot open" ∧
     libEvents (main noDbWorld ⟨"p.db", false, Command.getAllAddresses⟩).1 = [] ∧
     fileOpens (main noDbWorld ⟨"p.db", false, Command.getAllAddresses⟩).1 = []) :=
  ⟨rfl, C9_db_open_failure noDbWorld ⟨"p.db", false, Command.getAllAddresses⟩ "db: cannot open" rfl⟩

/-! ### Claim C10 -/

/-- C10: `cli_support::init_trace_logging` runs iff `--no-logging` is
absent, and the flag has no other effect: with the flag set, the trace is
exactly the flagless trace with the logging event removed (so every
database, file, parse and library operation, and the result, coincide). -/
theorem C10_no_logging (w : World) (p : String) (cmd : Command) :
    Event.initLogging ∈ (main w ⟨p, false, cmd⟩).1 ∧
    Event.initLogging ∉ (main w ⟨p, true, cmd⟩).1 ∧
    (main w ⟨p, true, cmd⟩).2 = (main w ⟨p, false, cmd⟩).2 ∧
    (main w ⟨p, true, cmd⟩).1 =
      (main w ⟨p, false, cmd⟩).1.filter fun ev => decide (ev ≠ Event.initLogging) := by
  unfold main
  cases hdb : w.dbNew p <;>
    simp_all [List.filter_eq_self, dispatch_no_initLogging]
  · symm
    rw [List.filter_eq_self]
    intro a ha
    simp only [Bool.not_eq_true', decide_eq_false_iff_not]
    intro hcontra
    subst hcontra
    exact dispatch_no_initLogging w _ cmd ha

/-! ### Shape of a `main` run -/

theorem main_ok_fst (w : World) (opts : Opts) (db : AutofillDb)
    (h : w.dbNew opts.database_path = .ok db) :
    (main w opts).1 =
      (if opts.no_logging then ([] : List Event) else [Event.initLogging]) ++
        Event.dbNew opts.database_path :: (dispatch w db opts.cmd).1 := by
  unfold main
  rw [h]

theorem main_ok_snd (w : World) (opts : Opts) (db : AutofillDb)
    (h : w.dbNew opts.database_path = .ok db) :
    (main w opts).2 = (dispatch w db opts.cmd).2 := by
  unfold main
  rw [h]

theorem main_error_fst (w : World) (opts : Opts) (e : Err)
    (h : w.dbNew opts.database_path = .error e) :
    (main w opts).1 =
      (if opts.no_logging then ([] : List Event) else [Event.initLogging]) ++
        [Event.dbNew opts.database_path] := by
  unfold main
  rw [h]

theorem main_error_snd (w : World) (opts : Opts) (e : Err)
    (h : w.dbNew opts.database_path = .error e) :
    (main w opts).2 = .error e := by
  unfold main
  rw [h]

/-! ### Claim C3 -/

/-- C3: every failure of a run — database open, file open, JSON parse or
library call — is propagated unmodified to `main`'s result: whenever
`main` returns an error, the trace's last event is the very step whose
oracle failed, and `main`'s error is exactly that step's error (nothing
runs past the failed step, no retry). -/
theorem C3_error_propagation (w : World) (opts : Opts) (e : Err)
    (h : (main w opts).2 = .error e) :
    ∃ ev, lastEvent (main w opts).1 = some ev ∧ stepErr w ev = some e := by
  cases hdb : w.dbNew opts.database_path with
  | error e1 =>
      rw [main_error_snd w opts e1 hdb] at h
      simp only [Except.error.injEq] at h
      subst h
      refine ⟨.dbNew opts.database_path, ?_, by simp [stepErr, hdb]⟩
      rw [main_error_fst w opts e1 hdb, lastEvent_append_cons]
      rfl
  | ok db =>
      rw [main_ok_snd w opts db hdb] at h
      obtain ⟨ev, hlast, herr⟩ := dispatch_error_last w db opts.cmd e h
      refine ⟨ev, ?_, herr⟩
      rw [main_ok_fst w opts db hdb, lastEvent_append_cons,
        lastEvent_cons_ne _ _ (dispatch_ne_nil w db opts.cmd), hlast]

/-- Witness for C3: a run whose input file cannot be opened fails with
exactly the file-open error, as the last step of its trace. -/
theorem C3_error_propagation_witness :
    (main noFileWorld ⟨"p.db", true, Command.addAddress "in.json"⟩).2 =
      .error "io: not found" ∧
    (∃ ev,
      lastEvent (main noFileWorld ⟨"p.db", true, Command.addAddress "in.json"⟩).1 = some ev ∧
      stepErr noFileWorld ev = some "io: not found") :=
  ⟨rfl, C3_error_propagation noFileWorld ⟨"p.db", true, Command.addAddress "in.json"⟩
    "io: not found" rfl⟩

/-! ### Claim C2 -/

/-- C2: for the four file-consuming subcommands, if the input file does
not open or its contents do not deserialize, the handler returns an error
and performs no library CRUD call at all. -/
theorem C2_invalid_input (w : World) (db : AutofillDb) (cmd : Command)
    (hfile : isFileCmd cmd = true) (hbad : inputOk w cmd = false) :
    (∃ e, (dispatch w db cmd).2 = .error e) ∧
    libEvents (dispatch w db cmd).1 = [] := by
  cases cmd with
  | addAddress f =>
      simp only [inputOk] at hbad
      cases hfo : w.fileOpen f with
      | error e =>
          exact ⟨⟨e, by simp [dispatch, run_add_address, hfo]⟩,
            by simp [dispatch, run_add_address, hfo, libEvents]⟩
      | ok c =>
          simp only [hfo] at hbad
          cases hp : w.parseNewAddressFields c with
          | error e =>
              exact ⟨⟨e, by simp [dispatch, run_add_address, hfo, hp]⟩,
                by simp [dispatch, run_add_address, hfo, hp, libEvents]⟩
          | ok fields => simp only [hp] at hbad; exact absurd hbad (by simp)
  | updateAddress f =>
      simp only [inputOk] at hbad
      cases hfo : w.fileOpen f with
      | error e =>
          exact ⟨⟨e, by simp [dispatch, run_update_address, hfo]⟩,
            by simp [dispatch, run_update_address, hfo, libEvents]⟩
      | ok c =>
          simp only [hfo] at hbad
          cases hp : w.parseAddress c with
          | error e =>
              exact ⟨⟨e, by simp [dispatch, run_update_address, hfo, hp]⟩,
                by simp [dispatch, run_update_address, hfo, hp, libEvents]⟩
          | ok fields => simp only [hp] at hbad; exact absurd hbad (by simp)
  | addCreditCard f =>
      simp only [inputOk] at hbad
      cases hfo : w.fileOpen f with
      | error e =>
          exact ⟨⟨e, by simp [dispatch, run_add_credit_card, hfo]⟩,
            by simp [dispatch, run_add_credit_card, hfo, libEvents]⟩
      | ok c =>
          simp only [hfo] at hbad
          cases hp : w.parseNewCreditCardFields c with
          | error e =>
              exact ⟨⟨e, by simp [dispatch, run_add_credit_card, hfo, hp]⟩,
                by simp [dispatch, run_add_credit_card, hfo, hp, libEvents]⟩
          | ok fields => simp only [hp] at hbad; exact absurd hbad (by simp)
  | updateCreditCard f =>
      simp only [inputOk] at hbad
      cases hfo : w.fileOpen f with
      | error e =>
          exact ⟨⟨e, by simp [dispatch, run_update_credit_card, hfo]⟩,
            by simp [dispatch, run_update_credit_card, hfo, libEvents]⟩
      | ok c =>
          simp only [hfo] at hbad
          cases hp : w.parseCreditCard c with
          | error e =>
              exact ⟨⟨e, by simp [dispatch, run_update_credit_card, hfo, hp]⟩,
                by simp [dispatch, run_update_credit_card, hfo, hp, libEvents]⟩
          | ok fields => simp only [hp] at hbad; exact absurd hbad (by simp)
  | getAddress g => exact absurd hfile (by simp [isFileCmd])
  | getAllAddresses => exact absurd hfile (by simp [isFileCmd])
  | deleteAddress g => exact absurd hfile (by simp [isFileCmd])
  | getCreditCard g => exact absurd hfile (by simp [isFileCmd])
  | getAllCreditCards => exact absurd hfile (by simp [isFileCmd])
  | deleteCreditCard g => exact absurd hfile (by simp [isFileCmd])

/-- Witness for C2: with an unopenable input file, `add-address` fails
and no library call is made. -/
theorem C2_invalid_input_witness :
    isFileCmd (Command.addAddress "in.json") = true ∧
    inputOk noFileWorld (Command.addAddress "in.json") = false ∧
    ((∃ e, (dispatch noFileWorld ⟨7⟩ (Command.addAddress "in.json")).2 = .error e) ∧
     libEvents (dispatch noFileWorld ⟨7⟩ (Command.addAddress "in.json")).1 = []) :=
  ⟨rfl, rfl, C2_invalid_input noFileWorld ⟨7⟩ (Command.addAddress "in.json") rfl rfl⟩

/-! ### Claim C4 -/

/-- C4: whatever value the JSON deserializes to is the very value handed
to the library call — the `libCall` event carries the deserialized record
itself, unmodified, for each of the four file-consuming subcommands. -/
theorem C4_payload_forwarded (w : World) (db : AutofillDb) (f c : String)
    (naf : NewAddressFields) (a : Address) (ncf : NewCreditCardFields) (cc : CreditCard)
    (hfo : w.fileOpen f = .ok c)
    (h1 : w.parseNewAddressFields c = .ok naf)
    (h2 : w.parseAddress c = .ok a)
    (h3 : w.parseNewCreditCardFields c = .ok ncf)
    (h4 : w.parseCreditCard c = .ok cc) :
    Event.libCall db.writer (.addAddress naf) ∈ (run_add_address w db f).1 ∧
    Event.libCall db.writer (.updateAddress a) ∈ (run_update_address w db f).1 ∧
    Event.libCall db.writer (.addCreditCard ncf) ∈ (run_add_credit_card w db f).1 ∧
    Event.libCall db.writer (.updateCreditCard cc) ∈ (run_update_credit_card w db f).1 := by
  refine ⟨?_, ?_, ?_, ?_⟩
  · simp only [run_add_address, hfo, h1]
    cases hlc : w.addAddress db.writer naf <;> simp
  · simp only [run_update_address, hfo, h2]
    cases hlc : w.updateAddress db.writer a with
    | error e => simp
    | ok u => cases hg : w.getAddress db.writer a.guid <;> simp
  · simp only [run_add_credit_card, hfo, h3]
    cases hlc : w.addCreditCard db.writer ncf <;> simp
  · simp only [run_update_credit_card, hfo, h4]
    cases hlc : w.updateCreditCard db.writer cc with
    | error e => simp
    | ok u => cases hg : w.getCreditCard db.writer cc.guid <;> simp

/-- Witness for C4 at a world where every deserialization succeeds. -/
theorem C4_payload_forwarded_witness :
    happyWorld.fileOpen "in.json" = .ok "contents" ∧
    happyWorld.parseNewAddressFields "contents" = .ok ⟨"new-addr"⟩ ∧
    happyWorld.parseAddress "contents" = .ok addrW ∧
    happyWorld.parseNewCreditCardFields "contents" = .ok ⟨"new-card"⟩ ∧
    happyWorld.parseCreditCard "contents" = .ok cardW ∧
    (Event.libCall 7 (.addAddress ⟨"new-addr"⟩) ∈
        (run_add_address happyWorld ⟨7⟩ "in.json").1 ∧
     Event.libCall 7 (.updateAddress addrW) ∈
        (run_update_address happyWorld ⟨7⟩ "in.json").1 ∧
     Event.libCall 7 (.addCreditCard ⟨"new-card"⟩) ∈
        (run_add_credit_card happyWorld ⟨7⟩ "in.json").1 ∧
     Event.libCall 7 (.updateCreditCard cardW) ∈
        (run_update_credit_card happyWorld ⟨7⟩ "in.json").1) :=
  ⟨rfl, rfl, rfl, rfl, rfl,
    C4_payload_forwarded happyWorld ⟨7⟩ "in.json" "contents" ⟨"new-addr"⟩ addrW
      ⟨"new-card"⟩ cardW rfl rfl rfl rfl rfl⟩

/-! ### Claim C7 -/

/-- C7: a run executes exactly one subcommand handler: after the single
`AutofillDb::new` (which happens before dispatch), the trace is exactly
the dispatched handler's trace, the run's result is that handler's
result, and every library call in the whole run is made on the one handle
returned by `AutofillDb::new`. -/
theorem C7_single_handle (w : World) (opts : Opts) (db : AutofillDb) (wr : Nat)
    (call : LibCall) (h : w.dbNew opts.database_path = .ok db) :
    dbNews (main w opts).1 = [opts.database_path] ∧
    (main w opts).1 =
      (if opts.no_logging then ([] : List Event) else [Event.initLogging]) ++
        Event.dbNew opts.database_path :: (dispatch w db opts.cmd).1 ∧
    (main w opts).2 = (dispatch w db opts.cmd).2 ∧
    (Event.libCall wr call ∈ (main w opts).1 → wr = db.writer) := by
  refine ⟨?_, main_ok_fst w opts db h, main_ok_snd w opts db h, ?_⟩
  · rw [main_ok_fst w opts db h, dbNews_append]
    rcases opts with ⟨p, nl, cmd⟩
    cases nl <;> simp [dbNews, dispatch_dbNews]
  · intro hmem
    rw [main_ok_fst w opts db h] at hmem
    have hdisp : Event.libCall wr call ∈ (dispatch w db opts.cmd).1 := by
      rcases List.mem_append.mp hmem with hin | hin
      · exfalso
        rcases opts with ⟨p, nl, cmd⟩
        cases nl <;> simp_all
      · rcases List.mem_cons.mp hin with heq | hin
        · exact absurd heq (by simp)
        · exact hin
    exact dispatch_writer w db opts.cmd wr call hdisp

/-- Witness for C7 at a concrete successful database open. -/
theorem C7_single_handle_witness :
    happyWorld.dbNew "p.db" = .ok ⟨7⟩ ∧
    (dbNews (main happyWorld ⟨"p.db", true, Command.getAddress "g1"⟩).1 = ["p.db"] ∧
     (main happyWorld ⟨"p.db", true, Command.getAddress "g1"⟩).1 =
       (if (true : Bool) then ([] : List Event) else [Event.initLogging]) ++
         Event.dbNew "p.db" ::
           (dispatch happyWorld ⟨7⟩ (Command.getAddress "g1")).1 ∧
     (main happyWorld ⟨"p.db", true, Command.getAddress "g1"⟩).2 =
       (dispatch happyWorld ⟨7⟩ (Command.getAddress "g1")).2 ∧
     (Event.libCall 3 .getAllAddresses ∈
        (main happyWorld ⟨"p.db", true, Command.getAddress "g1"⟩).1 → 3 = 7)) :=
  ⟨rfl, C7_single_handle happyWorld ⟨"p.db", true, Command.getAddress "g1"⟩ ⟨7⟩ 3
    .getAllAddresses rfl⟩

/-! ### Claim C8 -/

/-- C8: for both update subcommands the record identifier is the `guid`
field of the deserialized payload (update subcommands declare
`--input-file`, not `--guid`); after a successful update the handler
re-fetches via the corresponding get call with that same guid and prints
the fetched record. -/
theorem C8_update_refetch (w : World) (db : AutofillDb) (f c : String)
    (a : Address) (cc : CreditCard) (ra : Address) (rc : CreditCard)
    (hfo : w.fileOpen f = .ok c)
    (hpa : w.parseAddress c = .ok a)
    (hua : w.updateAddress db.writer a = .ok ())
    (hga : w.getAddress db.writer a.guid = .ok ra)
    (hpc : w.parseCreditCard c = .ok cc)
    (huc : w.updateCreditCard db.writer cc = .ok ())
    (hgc : w.getCreditCard db.writer cc.guid = .ok rc) :
    libEvents (run_update_address w db f).1 =
      [.updateAddress a, .getAddress a.guid] ∧
    lastEvent (run_update_address w db f).1 =
      some (.print (.updatedAddress ra)) ∧
    libEvents (run_update_credit_card w db f).1 =
      [.updateCreditCard cc, .getCreditCard cc.guid] ∧
    lastEvent (run_update_credit_card w db f).1 =
      some (.print (.updatedCreditCard rc)) ∧
    (commandSpecs.filter fun s =>
        decide (s.name = "update-address") || decide (s.name = "update-credit-card")).map
      SubcommandSpec.arg = [ArgKind.inputFile, ArgKind.inputFile] := by
  refine ⟨?_, ?_, ?_, ?_, by decide⟩ <;>
    simp [run_update_address, run_update_credit_card, hfo, hpa, hua, hga, hpc, huc, hgc,
      libEvents, lastEvent]

/-- Witness for C8 at a world where both updates succeed. -/
theorem C8_update_refetch_witness :
    happyWorld.fileOpen "in.json" = .ok "contents" ∧
    happyWorld.parseAddress "contents" = .ok addrW ∧
    happyWorld.updateAddress 7 addrW = .ok () ∧
    happyWorld.getAddress 7 addrW.guid = .ok addrW ∧
    happyWorld.parseCreditCard "contents" = .ok cardW ∧
    happyWorld.updateCreditCard 7 cardW = .ok () ∧
    happyWorld.getCreditCard 7 cardW.guid = .ok cardW ∧
    (libEvents (run_update_address happyWorld ⟨7⟩ "in.json").1 =
       [.updateAddress addrW, .getAddress addrW.guid] ∧
     lastEvent (run_update_address happyWorld ⟨7⟩ "in.json").1 =
       some (.print (.updatedAddress addrW)) ∧
     libEvents (run_update_credit_card happyWorld ⟨7⟩ "in.json").1 =
       [.updateCreditCard cardW, .getCreditCard cardW.guid] ∧
     lastEvent (run_update_credit_card happyWorld ⟨7⟩ "in.json").1 =
       some (.print (.updatedCreditCard cardW)) ∧
     (commandSpecs.filter fun s =>
         decide (s.name = "update-address") || decide (s.name = "update-credit-card")).map
       SubcommandSpec.arg = [ArgKind.inputFile, ArgKind.inputFile]) :=
  ⟨rfl, rfl, rfl, rfl, rfl, rfl, rfl,
    C8_update_refetch happyWorld ⟨7⟩ "in.json" "contents" addrW cardW addrW cardW
      rfl rfl rfl rfl rfl rfl rfl⟩

/-! ### Claim C1 -/

/-- C1, as stated, is false: on a successful `update-address` run with
valid input, the handler makes two library calls
(`addresses::update_address` followed by `addresses::get_address`), not
exactly one. -/
theorem C1_counterexample :
    (run_update_address happyWorld ⟨7⟩ "in.json").2 = Except.ok () ∧
    (libEvents (run_update_address happyWorld ⟨7⟩ "in.json").1).length = 2 :=
  ⟨rfl, rfl⟩

/-- C1 (amended): on every successful run, a non-update subcommand's
handler makes exactly one library call — the corresponding one — while an
update subcommand's handler makes exactly two: the corresponding update
call followed by the corresponding get re-fetch; in every case the last
thing the handler does is print the corresponding result. -/
theorem C1_amended_one_call (w : World) (db : AutofillDb) (cmd : Command)
    (h : (dispatch w db cmd).2 = Except.ok ()) :
    ((isUpdateCmd cmd = false ∧
        ∃ c, libEvents (dispatch w db cmd).1 = [c] ∧ matchesCall cmd c = true) ∨
     (isUpdateCmd cmd = true ∧
        ∃ c g, libEvents (dispatch w db cmd).1 = [c, g] ∧
          matchesCall cmd c = true ∧ isGetFollowup cmd g = true)) ∧
    (∃ out, lastEvent (dispatch w db cmd).1 = some (Event.print out) ∧
      resultPrint cmd out = true) := by
  cases cmd <;>
    simp only [dispatch, run_add_address, run_get_address, run_get_all_addresses,
      run_update_address, run_delete_address, run_add_credit_card, run_get_credit_card,
      run_get_all_credit_cards, run_update_credit_card, run_delete_credit_card] at h ⊢ <;>
    (repeat' split at h) <;>
    simp_all [libEvents, lastEvent, matchesCall, isUpdateCmd, isGetFollowup, resultPrint] <;>
    exact ⟨_, _, ⟨rfl, rfl⟩, rfl, rfl⟩

/-- Witness for C1 (amended) at a successful `delete-address` run. -/
theorem C1_amended_one_call_witness :
    (dispatch happyWorld ⟨7⟩ (Command.deleteAddress "g1")).2 = Except.ok () ∧
    (((isUpdateCmd (Command.deleteAddress "g1") = false ∧
        ∃ c, libEvents (dispatch happyWorld ⟨7⟩ (Command.deleteAddress "g1")).1 = [c] ∧
          matchesCall (Command.deleteAddress "g1") c = true) ∨
      (isUpdateCmd (Command.deleteAddress "g1") = true ∧
        ∃ c g, libEvents (dispatch happyWorld ⟨7⟩ (Command.deleteAddress "g1")).1 = [c, g] ∧
          matchesCall (Command.deleteAddress "g1") c = true ∧
          isGetFollowup (Command.deleteAddress "g1") g = true)) ∧
     (∃ out, lastEvent (dispatch happyWorld ⟨7⟩ (Command.deleteAddress "g1")).1 =
        some (Event.print out) ∧ resultPrint (Command.deleteAddress "g1") out = true)) :=
  ⟨rfl, C1_amended_one_call happyWorld ⟨7⟩ (Command.deleteAddress "g1") rfl⟩

end AutofillUtils
